import Mathlib

/-!
# Verification of the distributed-failure-simulator core

Shallow embedding of the simulation engine of `src/main.py` (namespace
`Sim`) and of the duplicated logic of `src/dashboard.py` (namespace
`Dash`), together with theorems settling the frozen claims about the
natural-language specification.

Modelling conventions:
* Python integers are modelled as `Int` (loads, times, costs, scores);
  the two numeric divisions in the code (`//` on positive operands in the
  load balancer, `/` in the MTTR) are modelled as `Int` division and
  exact `ℚ` division respectively.
* Component names and timeline cause strings are modelled as finite
  inductive types (`CompName`, `Cause`); the string `"Injected failure"`
  corresponds to `Cause.injected`, `"Overload due to dependency failure"`
  to `Cause.depOverload`, `"Traffic overload"` to `Cause.trafficOverload`.
* The Python comparison `0.8 * max_load < load` on integers is modelled
  exactly as `4 * max_load < 5 * load`.
* The fixed five-component topology of the source (one network, two
  databases depending on it, two web servers depending on both
  databases) is embedded as five named fields of the state record, with
  the dependency wiring hard-coded in the propagation functions exactly
  as wired at construction in the source.
-/

namespace Sim

/-- Component status, `"UP"` / `"DOWN"` in the source. -/
inductive Status where
  | UP : Status
  | DOWN : Status
deriving DecidableEq, Repr

/-- The five component names of the fixed topology of `main.py`. -/
inductive CompName where
  | Network : CompName
  | Database1 : CompName
  | Database2 : CompName
  | WebServer1 : CompName
  | WebServer2 : CompName
deriving DecidableEq, Repr

/-- Timeline cause labels of `main.py`. -/
inductive Cause where
  | injected : Cause
  | depOverload : Cause
  | trafficOverload : Cause
deriving DecidableEq, Repr

/-- `class Component` of `main.py` (the `dependencies` list is fixed at
construction and embedded in the propagation functions instead). -/
structure Component where
  name : CompName
  max_load : Int
  cost_per_step : Int
  recovery_time : Int
  load : Int
  status : Status
  down_since : Option Int
  recovery_history : List Int
  degraded : Bool
deriving DecidableEq, Repr

/-- A failure-timeline event `(time, component name, cause)`. -/
abbrev TimelineEvent := Int × CompName × Cause

/-- The whole mutable state of `main.py`: the five components plus the
global tracking variables. -/
structure SimState where
  network : Component
  db1 : Component
  db2 : Component
  ws1 : Component
  ws2 : Component
  failure_timeline : List TimelineEvent
  current_time : Int
  system_down_time : Option Int
  total_failure_cost : Int
deriving DecidableEq, Repr

/-- `Component.__init__` of `main.py`. -/
def mkComponent (name : CompName) (max_load cost_per_step recovery_time : Int) :
    Component :=
  { name := name
    max_load := max_load
    cost_per_step := cost_per_step
    recovery_time := recovery_time
    load := 0
    status := Status.UP
    down_since := none
    recovery_history := []
    degraded := false }

/-- The system as constructed at module load in `main.py` (components
with the literal parameters of the source, zeroed global tracking). -/
def initState : SimState :=
  { network := mkComponent CompName.Network 80 5000 3
    db1 := mkComponent CompName.Database1 100 20000 2
    db2 := mkComponent CompName.Database2 100 20000 2
    ws1 := mkComponent CompName.WebServer1 120 15000 1
    ws2 := mkComponent CompName.WebServer2 120 15000 1
    failure_timeline := []
    current_time := 0
    system_down_time := none
    total_failure_cost := 0 }

/-- Read one of the five component slots. -/
def getComp (s : SimState) (c : CompName) : Component :=
  match c with
  | CompName.Network => s.network
  | CompName.Database1 => s.db1
  | CompName.Database2 => s.db2
  | CompName.WebServer1 => s.ws1
  | CompName.WebServer2 => s.ws2

/-- Write one of the five component slots. -/
def setComp (s : SimState) (c : CompName) (k : Component) : SimState :=
  match c with
  | CompName.Network => { s with network := k }
  | CompName.Database1 => { s with db1 := k }
  | CompName.Database2 => { s with db2 := k }
  | CompName.WebServer1 => { s with ws1 := k }
  | CompName.WebServer2 => { s with ws2 := k }

/-- `inject_failure` of `main.py`: unconditionally sets the component
`DOWN`, stamps `down_since` with the current time and appends an
`"Injected failure"` timeline event. -/
def inject_failure (c : CompName) (s : SimState) : SimState :=
  let k := getComp s c
  let s2 := setComp s c { k with status := Status.DOWN, down_since := some s.current_time }
  { s2 with failure_timeline :=
      s2.failure_timeline ++ [(s.current_time, k.name, Cause.injected)] }

/-- `update_component` of `main.py`, for one component whose dependency
statuses are `dep_statuses`: a `DOWN` component is untouched; otherwise
each `DOWN` dependency adds 50 load, and if the load then exceeds
`max_load` the component fails with an overload timeline event. -/
def update_component (dep_statuses : List Status) (t : Int) (c : Component) :
    Component × List TimelineEvent :=
  if c.status = Status.DOWN then (c, [])
  else
    let c2 := { c with load :=
      c.load + 50 * ((dep_statuses.countP fun st => decide (st = Status.DOWN) : Nat) : Int) }
    if c2.load > c2.max_load then
      ({ c2 with status := Status.DOWN, down_since := some t },
        [(t, c2.name, Cause.depOverload)])
    else (c2, [])

/-- The database pass of the propagation loop in `simulate` (each
database depends on the network, as wired at construction). -/
def propagate_databases (s : SimState) : SimState :=
  { s with
    db1 := (update_component [s.network.status] s.current_time s.db1).1
    db2 := (update_component [s.network.status] s.current_time s.db2).1
    failure_timeline := s.failure_timeline
      ++ (update_component [s.network.status] s.current_time s.db1).2
      ++ (update_component [s.network.status] s.current_time s.db2).2 }

/-- The server pass of the propagation loop in `simulate` (each server
depends on both databases, as wired at construction). -/
def propagate_servers (s : SimState) : SimState :=
  { s with
    ws1 := (update_component [s.db1.status, s.db2.status] s.current_time s.ws1).1
    ws2 := (update_component [s.db1.status, s.db2.status] s.current_time s.ws2).1
    failure_timeline := s.failure_timeline
      ++ (update_component [s.db1.status, s.db2.status] s.current_time s.ws1).2
      ++ (update_component [s.db1.status, s.db2.status] s.current_time s.ws2).2 }

/-- The body of the per-server loop of `distribute_traffic`: add the
per-server share, set `degraded` when load lands strictly above 80% and
at most 100% of capacity, fail on overload with a `"Traffic overload"`
event. -/
def lb_update (per t : Int) (c : Component) : Component × List TimelineEvent :=
  let c2 := { c with load := c.load + per }
  let c3 := if 4 * c2.max_load < 5 * c2.load ∧ c2.load ≤ c2.max_load then
      { c2 with degraded := true } else c2
  if c3.load > c3.max_load then
    ({ c3 with status := Status.DOWN, down_since := some t },
      [(t, c3.name, Cause.trafficOverload)])
  else (c3, [])

/-- `distribute_traffic` of `main.py` with its default `total_traffic`
of 120: the active-server list is computed before the loop, the traffic
is split by integer division across it, and each active server is
updated by `lb_update`. -/
def distribute_traffic (s : SimState) : SimState :=
  let activeCount : Int :=
    (if s.ws1.status = Status.UP then 1 else 0) + (if s.ws2.status = Status.UP then 1 else 0)
  if activeCount = 0 then s
  else
    let per : Int := 120 / activeCount
    { s with
      ws1 := if s.ws1.status = Status.UP then (lb_update per s.current_time s.ws1).1 else s.ws1
      ws2 := if s.ws2.status = Status.UP then (lb_update per s.current_time s.ws2).1 else s.ws2
      failure_timeline := s.failure_timeline
        ++ (if s.ws1.status = Status.UP then (lb_update per s.current_time s.ws1).2 else [])
        ++ (if s.ws2.status = Status.UP then (lb_update per s.current_time s.ws2).2 else []) }

/-- The cost-accrual loop of `simulate`: every currently `DOWN`
component adds its `cost_per_step` to the global total. -/
def accrue_cost (s : SimState) : SimState :=
  let costIf : Component → Int := fun c => if c.status = Status.DOWN then c.cost_per_step else 0
  { s with total_failure_cost := s.total_failure_cost
      + costIf s.network + costIf s.db1 + costIf s.db2 + costIf s.ws1 + costIf s.ws2 }

/-- `system_down` of `main.py`: all databases `DOWN`, or all servers
`DOWN`. -/
def system_down (s : SimState) : Bool :=
  decide ((s.db1.status = Status.DOWN ∧ s.db2.status = Status.DOWN)
    ∨ (s.ws1.status = Status.DOWN ∧ s.ws2.status = Status.DOWN))

/-- The system-down bookkeeping of `simulate`: record the current time
the first time `system_down` is observed. -/
def record_system_down (s : SimState) : SimState :=
  if system_down s ∧ s.system_down_time = none then
    { s with system_down_time := some s.current_time }
  else s

/-- The per-component body of `recover_components`: a `DOWN` component
with a set `down_since` recovers once `current_time - down_since`
reaches its `recovery_time`, resetting load and `degraded`, clearing
`down_since` and appending the duration to its history. -/
def recover_component (t : Int) (c : Component) : Component :=
  match c.status, c.down_since with
  | Status.DOWN, some d =>
      if t - d ≥ c.recovery_time then
        { c with status := Status.UP, load := 0, degraded := false, down_since := none
                 recovery_history := c.recovery_history ++ [t - d] }
      else c
  | _, _ => c

/-- `recover_components` of `main.py`, over all five components. -/
def recover_components (s : SimState) : SimState :=
  { s with
    network := recover_component s.current_time s.network
    db1 := recover_component s.current_time s.db1
    db2 := recover_component s.current_time s.db2
    ws1 := recover_component s.current_time s.ws1
    ws2 := recover_component s.current_time s.ws2 }

/-- One iteration of the loop of `simulate` in `main.py`: set the time
to its successor, then propagate over databases and servers, distribute
traffic, accrue cost, record a first system-down observation, and
recover. -/
def step (s : SimState) : SimState :=
  recover_components (record_system_down (accrue_cost (distribute_traffic
    (propagate_servers (propagate_databases
      { s with current_time := s.current_time + 1 })))))

/-- `calculate_resilience_score` of `main.py`. -/
def calculate_resilience_score (total_time : Int) (s : SimState) : Int :=
  let score : Int := 100
  let score : Int := match s.system_down_time with
    | some d => score - (total_time - d) * 10
    | none => score
  let score : Int := score - ((s.failure_timeline.map fun e => e.2.1).dedup.length : Int) * 10
  let score : Int := score - (s.failure_timeline.length : Int) * 5
  max score 0

/-- The concatenated recovery histories of all components, in the order
`[network] + databases + servers` of `calculate_mttr`. -/
def all_recovery_times (s : SimState) : List Int :=
  s.network.recovery_history ++ s.db1.recovery_history ++ s.db2.recovery_history
    ++ s.ws1.recovery_history ++ s.ws2.recovery_history

/-- `calculate_mttr` of `main.py`: mean of all recovery durations, `0`
when there are none. -/
def calculate_mttr (s : SimState) : ℚ :=
  let times := all_recovery_times s
  if times = [] then 0 else ((times.sum : Int) : ℚ) / (times.length : ℚ)

/-- The per-component body of `reset_system`: status, load, `down_since`
and `degraded` are reinitialised; `recovery_history` (and the static
parameters) are left as they are, exactly as in the source. -/
def reset_component (c : Component) : Component :=
  { c with status := Status.UP, load := 0, down_since := none, degraded := false }

/-- `reset_system` of `main.py`: clears the timeline, time, system-down
time and cost, and reinitialises every component's dynamic fields
(without touching `recovery_history`). -/
def reset_system (s : SimState) : SimState :=
  { s with
    network := reset_component s.network
    db1 := reset_component s.db1
    db2 := reset_component s.db2
    ws1 := reset_component s.ws1
    ws2 := reset_component s.ws2
    failure_timeline := []
    current_time := 0
    system_down_time := none
    total_failure_cost := 0 }

/-- States reachable from the constructed baseline by failure injection,
simulation steps and resets. -/
inductive Reachable : SimState → Prop where
  | init : Reachable initState
  | inject (c : CompName) {s : SimState} : Reachable s → Reachable (inject_failure c s)
  | step {s : SimState} : Reachable s → Reachable (step s)
  | reset {s : SimState} : Reachable s → Reachable (reset_system s)

end Sim

namespace Dash

/-- `class Component` of `dashboard.py` (no `degraded` flag; the cost
field is called `cost` there). -/
structure DComponent where
  name : Sim.CompName
  max_load : Int
  cost : Int
  recovery_time : Int
  status : Sim.Status
  load : Int
  down_since : Option Int
  recovery_history : List Int
deriving DecidableEq, Repr

/-- The session state of `dashboard.py`: the five components plus the
`time` and `cost` counters (the dashboard keeps no failure timeline and
no system-down time). -/
structure DState where
  network : DComponent
  db1 : DComponent
  db2 : DComponent
  ws1 : DComponent
  ws2 : DComponent
  time : Int
  cost : Int
deriving DecidableEq, Repr

/-- `Component.__init__` of `dashboard.py`. -/
def mkDComponent (name : Sim.CompName) (max_load cost recovery_time : Int) :
    DComponent :=
  { name := name
    max_load := max_load
    cost := cost
    recovery_time := recovery_time
    status := Sim.Status.UP
    load := 0
    down_since := none
    recovery_history := [] }

/-- `init_system` of `dashboard.py` plus the zeroed session counters. -/
def dinit : DState :=
  { network := mkDComponent Sim.CompName.Network 80 5000 3
    db1 := mkDComponent Sim.CompName.Database1 100 20000 2
    db2 := mkDComponent Sim.CompName.Database2 100 20000 2
    ws1 := mkDComponent Sim.CompName.WebServer1 120 15000 1
    ws2 := mkDComponent Sim.CompName.WebServer2 120 15000 1
    time := 0
    cost := 0 }

/-- Read one of the five component slots. -/
def getC (d : DState) (c : Sim.CompName) : DComponent :=
  match c with
  | Sim.CompName.Network => d.network
  | Sim.CompName.Database1 => d.db1
  | Sim.CompName.Database2 => d.db2
  | Sim.CompName.WebServer1 => d.ws1
  | Sim.CompName.WebServer2 => d.ws2

/-- Write one of the five component slots. -/
def setC (d : DState) (c : Sim.CompName) (k : DComponent) : DState :=
  match c with
  | Sim.CompName.Network => { d with network := k }
  | Sim.CompName.Database1 => { d with db1 := k }
  | Sim.CompName.Database2 => { d with db2 := k }
  | Sim.CompName.WebServer1 => { d with ws1 := k }
  | Sim.CompName.WebServer2 => { d with ws2 := k }

/-- `inject_failure` of `dashboard.py`: guarded, it only acts on a
component that is currently `UP`. -/
def dinject (c : Sim.CompName) (d : DState) : DState :=
  let k := getC d c
  if k.status = Sim.Status.UP then
    setC d c { k with status := Sim.Status.DOWN, down_since := some d.time }
  else d

/-- `update_component` of `dashboard.py` (no timeline, no `degraded`). -/
def dupdate_component (dep_statuses : List Sim.Status) (t : Int) (c : DComponent) :
    DComponent :=
  if c.status ≠ Sim.Status.UP then c
  else
    let c2 := { c with load :=
      c.load + 50 * ((dep_statuses.countP fun st => decide (st = Sim.Status.DOWN) : Nat) : Int) }
    if c2.load > c2.max_load then
      { c2 with status := Sim.Status.DOWN, down_since := some t }
    else c2

/-- The per-component body of `recover_components` in `dashboard.py`. -/
def drecover_component (t : Int) (c : DComponent) : DComponent :=
  match c.status, c.down_since with
  | Sim.Status.DOWN, some d =>
      if t - d ≥ c.recovery_time then
        { c with status := Sim.Status.UP, load := 0, down_since := none
                 recovery_history := c.recovery_history ++ [t - d] }
      else c
  | _, _ => c

/-- `recover_components` of `dashboard.py`. -/
def drecover (d : DState) : DState :=
  { d with
    network := drecover_component d.time d.network
    db1 := drecover_component d.time d.db1
    db2 := drecover_component d.time d.db2
    ws1 := drecover_component d.time d.ws1
    ws2 := drecover_component d.time d.ws2 }

/-- The cost-accrual loop of `simulate_step` in `dashboard.py`. -/
def daccrue_cost (d : DState) : DState :=
  let costIf : DComponent → Int := fun c => if c.status = Sim.Status.DOWN then c.cost else 0
  { d with cost := d.cost
      + costIf d.network + costIf d.db1 + costIf d.db2 + costIf d.ws1 + costIf d.ws2 }

/-- The database pass of `simulate_step` (each database depends on the
network). -/
def dpropagate_databases (d : DState) : DState :=
  { d with
    db1 := dupdate_component [d.network.status] d.time d.db1
    db2 := dupdate_component [d.network.status] d.time d.db2 }

/-- The server pass of `simulate_step` (each server depends on both
databases). -/
def dpropagate_servers (d : DState) : DState :=
  { d with
    ws1 := dupdate_component [d.db1.status, d.db2.status] d.time d.ws1
    ws2 := dupdate_component [d.db1.status, d.db2.status] d.time d.ws2 }

/-- `simulate_step` of `dashboard.py`: increment time, propagate over
databases and servers, recover, and only then accrue cost; the dashboard
step has no traffic-distribution phase and records no system-down
time. -/
def dstep (d : DState) : DState :=
  daccrue_cost (drecover (dpropagate_servers (dpropagate_databases
    { d with time := d.time + 1 })))

/-- `system_down` of `dashboard.py`. -/
def dsystem_down (d : DState) : Bool :=
  decide ((d.db1.status = Sim.Status.DOWN ∧ d.db2.status = Sim.Status.DOWN)
    ∨ (d.ws1.status = Sim.Status.DOWN ∧ d.ws2.status = Sim.Status.DOWN))

/-- The concatenated recovery histories of all components of the
dashboard state. -/
def dall_recovery_times (d : DState) : List Int :=
  d.network.recovery_history ++ d.db1.recovery_history ++ d.db2.recovery_history
    ++ d.ws1.recovery_history ++ d.ws2.recovery_history

/-- Round-half-to-even to the nearest integer, the rounding mode of
Python's builtin `round` (floats idealised as exact rationals). -/
def roundHalfEven (q : ℚ) : Int :=
  let f : Int := Int.floor q
  let r : ℚ := q - (f : ℚ)
  if r < 1 / 2 then f
  else if r > 1 / 2 then f + 1
  else if f % 2 = 0 then f else f + 1

/-- `round(x, 2)` of Python: round to two decimal places. -/
def roundTo2 (q : ℚ) : ℚ := ((roundHalfEven (100 * q) : Int) : ℚ) / 100

/-- `mttr` of `dashboard.py`: the mean of all recovery durations rounded
to two decimal places, `0.0` with no data. -/
def dmttr (d : DState) : ℚ :=
  let times := dall_recovery_times d
  if times = [] then 0
  else roundTo2 (((times.sum : Int) : ℚ) / (times.length : ℚ))

/-- `reset_system` of `dashboard.py`: rebuilds the whole system via
`init_system` and zeroes the counters, so it ignores the previous
state entirely. -/
def dreset (_ : DState) : DState := dinit

end Dash

namespace Sim

/-- The `failedSince`-iff-`Failed` well-formedness of one component. -/
def good (c : Component) : Prop :=
  c.status = Status.DOWN ↔ c.down_since ≠ none

/-- Every recorded recovery duration of `c` is at least its
`recovery_time`. -/
def histOK (c : Component) : Prop :=
  ∀ x ∈ c.recovery_history, c.recovery_time ≤ x

/-- The static parameters of `c` agree with those of `c0`. -/
def staticsEq (c0 c : Component) : Prop :=
  c.name = c0.name ∧ c.max_load = c0.max_load ∧
    c.cost_per_step = c0.cost_per_step ∧ c.recovery_time = c0.recovery_time

/-- The combined inductive invariant of the simulation. -/
def Inv (s : SimState) : Prop :=
  (∀ c, good (getComp s c)) ∧ (∀ c, histOK (getComp s c)) ∧
    (∀ c, staticsEq (getComp initState c) (getComp s c))

/-- Modelled from the spec's words, for comparison with the code:
"starts at 100; if a system-down time was recorded, subtract
(totalTimeSteps - systemDownTime) x 10; subtract 10 x (count of distinct
components ever appearing in the timeline); subtract 5 x (total number
of timeline events); floor at 0". -/
def spec_resilience_score (total_time : Int) (s : SimState) : Int :=
  let afterDown : Int := match s.system_down_time with
    | some d => 100 - (total_time - d) * 10
    | none => 100
  let distinct : Int := ((s.failure_timeline.map fun e => e.2.1).dedup.length : Int)
  let events : Int := (s.failure_timeline.length : Int)
  max (afterDown - 10 * distinct - 5 * events) 0

lemma update_component_frame (deps : List Status) (t : Int) (c : Component) :
    (update_component deps t c).1.name = c.name ∧
    (update_component deps t c).1.max_load = c.max_load ∧
    (update_component deps t c).1.cost_per_step = c.cost_per_step ∧
    (update_component deps t c).1.recovery_time = c.recovery_time ∧
    (update_component deps t c).1.recovery_history = c.recovery_history ∧
    (update_component deps t c).1.degraded = c.degraded := by
  simp only [update_component]
  split_ifs <;> simp

lemma update_component_good (deps : List Status) (t : Int) (c : Component)
    (h : good c) : good (update_component deps t c).1 := by
  simp only [update_component]
  split_ifs with h1 h2
  · exact h
  · simp [good]
  · simpa [good] using h

lemma update_component_down (deps : List Status) (t : Int) (c : Component)
    (h : c.status = Status.DOWN) : update_component deps t c = (c, []) := by
  simp [update_component, h]

lemma lb_update_frame (per t : Int) (c : Component) :
    (lb_update per t c).1.name = c.name ∧
    (lb_update per t c).1.max_load = c.max_load ∧
    (lb_update per t c).1.cost_per_step = c.cost_per_step ∧
    (lb_update per t c).1.recovery_time = c.recovery_time ∧
    (lb_update per t c).1.recovery_history = c.recovery_history := by
  simp only [lb_update]
  split_ifs <;> simp

lemma lb_update_good (per t : Int) (c : Component) (h : good c) :
    good (lb_update per t c).1 := by
  simp only [lb_update]
  split_ifs <;> simp [good] <;> simpa [good] using h

lemma lb_update_degraded (per t : Int) (c : Component) (h : c.degraded = true) :
    (lb_update per t c).1.degraded = true := by
  simp only [lb_update]
  split_ifs <;> simp [h]

lemma recover_component_good (t : Int) (c : Component) (h : good c) :
    good (recover_component t c) := by
  unfold recover_component
  cases hst : c.status <;> cases hds : c.down_since <;> simp only []
  · exact h
  · exact h
  · exact h
  · split_ifs
    · simp [good]
    · exact h

lemma recover_component_histOK (t : Int) (c : Component) (h : histOK c) :
    histOK (recover_component t c) := by
  unfold recover_component
  cases hst : c.status <;> cases hds : c.down_since <;> simp only []
  · exact h
  · exact h
  · exact h
  · split_ifs with hel
    · intro x hx
      simp only [List.mem_append, List.mem_singleton] at hx
      rcases hx with hx | hx
      · exact h x hx
      · subst hx; exact hel
    · exact h

lemma recover_component_staticsEq (c0 : Component) (t : Int) (c : Component)
    (h : staticsEq c0 c) : staticsEq c0 (recover_component t c) := by
  unfold recover_component
  cases hst : c.status <;> cases hds : c.down_since <;> simp only []
  · exact h
  · exact h
  · exact h
  · split_ifs
    · simpa [staticsEq] using h
    · exact h

lemma recover_component_not_eligible (t : Int) (c : Component) (d : Int)
    (h1 : c.status = Status.DOWN) (h2 : c.down_since = some d)
    (h3 : t - d < c.recovery_time) : recover_component t c = c := by
  unfold recover_component
  rw [h1, h2]
  simp only []
  rw [if_neg (by omega)]

lemma recover_component_eligible (t : Int) (c : Component) (d : Int)
    (h1 : c.status = Status.DOWN) (h2 : c.down_since = some d)
    (h3 : c.recovery_time ≤ t - d) :
    recover_component t c =
      { c with status := Status.UP, load := 0, degraded := false, down_since := none,
               recovery_history := c.recovery_history ++ [t - d] } := by
  unfold recover_component
  rw [h1, h2]
  simp only []
  rw [if_pos h3]

lemma recover_component_up (t : Int) (c : Component) (h : c.status = Status.UP) :
    recover_component t c = c := by
  unfold recover_component
  cases hds : c.down_since <;> rw [h]

lemma recover_component_none (t : Int) (c : Component) (h : c.down_since = none) :
    recover_component t c = c := by
  unfold recover_component
  cases hst : c.status <;> rw [h]

lemma reset_component_frame (c : Component) :
    (reset_component c).name = c.name ∧
    (reset_component c).max_load = c.max_load ∧
    (reset_component c).cost_per_step = c.cost_per_step ∧
    (reset_component c).recovery_time = c.recovery_time ∧
    (reset_component c).recovery_history = c.recovery_history := by
  simp [reset_component]

lemma getComp_tick (s : SimState) (t : Int) (c : CompName) :
    getComp { s with current_time := t } c = getComp s c := by
  cases c <;> rfl

lemma getComp_accrue (s : SimState) (c : CompName) :
    getComp (accrue_cost s) c = getComp s c := by
  cases c <;> rfl

lemma getComp_record (s : SimState) (c : CompName) :
    getComp (record_system_down s) c = getComp s c := by
  unfold record_system_down
  split <;> cases c <;> rfl

lemma ct_propagate_databases (s : SimState) :
    (propagate_databases s).current_time = s.current_time := rfl

lemma ct_propagate_servers (s : SimState) :
    (propagate_servers s).current_time = s.current_time := rfl

lemma ct_distribute (s : SimState) :
    (distribute_traffic s).current_time = s.current_time := by
  unfold distribute_traffic
  split_ifs <;> rfl

lemma ct_accrue (s : SimState) :
    (accrue_cost s).current_time = s.current_time := rfl

lemma ct_record (s : SimState) :
    (record_system_down s).current_time = s.current_time := by
  unfold record_system_down
  split <;> rfl

lemma ct_recover (s : SimState) :
    (recover_components s).current_time = s.current_time := rfl

lemma ct_step (s : SimState) : (step s).current_time = s.current_time + 1 := by
  unfold step
  rw [ct_recover, ct_record, ct_accrue, ct_distribute, ct_propagate_servers,
    ct_propagate_databases]

lemma histOK_of_frame (c c' : Component)
    (hh : c'.recovery_history = c.recovery_history)
    (hr : c'.recovery_time = c.recovery_time) (h : histOK c) : histOK c' := by
  intro x hx
  rw [hh] at hx
  rw [hr]
  exact h x hx

lemma staticsEq_trans_frame (c0 c c' : Component)
    (h1 : c'.name = c.name) (h2 : c'.max_load = c.max_load)
    (h3 : c'.cost_per_step = c.cost_per_step)
    (h4 : c'.recovery_time = c.recovery_time)
    (h : staticsEq c0 c) : staticsEq c0 c' :=
  ⟨h1.trans h.1, h2.trans h.2.1, h3.trans h.2.2.1, h4.trans h.2.2.2⟩

lemma getComp_propagate_databases (s : SimState) (c : CompName) :
    getComp (propagate_databases s) c = getComp s c ∨
    ∃ deps, getComp (propagate_databases s) c =
      (update_component deps s.current_time (getComp s c)).1 := by
  cases c
  · exact Or.inl rfl
  · exact Or.inr ⟨[s.network.status], rfl⟩
  · exact Or.inr ⟨[s.network.status], rfl⟩
  · exact Or.inl rfl
  · exact Or.inl rfl

lemma getComp_propagate_servers (s : SimState) (c : CompName) :
    getComp (propagate_servers s) c = getComp s c ∨
    ∃ deps, getComp (propagate_servers s) c =
      (update_component deps s.current_time (getComp s c)).1 := by
  cases c
  · exact Or.inl rfl
  · exact Or.inl rfl
  · exact Or.inl rfl
  · exact Or.inr ⟨[s.db1.status, s.db2.status], rfl⟩
  · exact Or.inr ⟨[s.db1.status, s.db2.status], rfl⟩

lemma getComp_distribute (s : SimState) (c : CompName) :
    getComp (distribute_traffic s) c = getComp s c ∨
    ((getComp s c).status = Status.UP ∧ ∃ per,
      getComp (distribute_traffic s) c =
        (lb_update per s.current_time (getComp s c)).1) := by
  unfold distribute_traffic
  split_ifs <;> cases c <;>
    first
      | exact Or.inl rfl
      | exact Or.inr ⟨by assumption, _, rfl⟩

lemma getComp_recover (s : SimState) (c : CompName) :
    getComp (recover_components s) c =
      recover_component s.current_time (getComp s c) := by
  cases c <;> rfl

lemma getComp_reset (s : SimState) (c : CompName) :
    getComp (reset_system s) c = reset_component (getComp s c) := by
  cases c <;> rfl

lemma getComp_inject_self (s : SimState) (c : CompName) :
    getComp (inject_failure c s) c =
      { getComp s c with status := Status.DOWN, down_since := some s.current_time } := by
  cases c <;> rfl

lemma getComp_inject_other (s : SimState) (c c' : CompName) (h : ¬ c = c') :
    getComp (inject_failure c s) c' = getComp s c' := by
  cases c <;> cases c' <;> first | rfl | exact absurd rfl h

lemma inv_tick (s : SimState) (t : Int) (h : Inv s) :
    Inv { s with current_time := t } := by
  obtain ⟨hg, hh, hst⟩ := h
  refine ⟨fun c => ?_, fun c => ?_, fun c => ?_⟩ <;> rw [getComp_tick]
  · exact hg c
  · exact hh c
  · exact hst c

lemma inv_propagate_databases (s : SimState) (h : Inv s) :
    Inv (propagate_databases s) := by
  obtain ⟨hg, hh, hst⟩ := h
  refine ⟨fun c => ?_, fun c => ?_, fun c => ?_⟩ <;>
    rcases getComp_propagate_databases s c with hEq | ⟨deps, hEq⟩ <;> rw [hEq]
  · exact hg c
  · exact update_component_good _ _ _ (hg c)
  · exact hh c
  · obtain ⟨f1, f2, f3, f4, f5, f6⟩ := update_component_frame deps s.current_time (getComp s c)
    exact histOK_of_frame _ _ f5 f4 (hh c)
  · exact hst c
  · obtain ⟨f1, f2, f3, f4, f5, f6⟩ := update_component_frame deps s.current_time (getComp s c)
    exact staticsEq_trans_frame _ _ _ f1 f2 f3 f4 (hst c)

lemma inv_propagate_servers (s : SimState) (h : Inv s) :
    Inv (propagate_servers s) := by
  obtain ⟨hg, hh, hst⟩ := h
  refine ⟨fun c => ?_, fun c => ?_, fun c => ?_⟩ <;>
    rcases getComp_propagate_servers s c with hEq | ⟨deps, hEq⟩ <;> rw [hEq]
  · exact hg c
  · exact update_component_good _ _ _ (hg c)
  · exact hh c
  · obtain ⟨f1, f2, f3, f4, f5, f6⟩ := update_component_frame deps s.current_time (getComp s c)
    exact histOK_of_frame _ _ f5 f4 (hh c)
  · exact hst c
  · obtain ⟨f1, f2, f3, f4, f5, f6⟩ := update_component_frame deps s.current_time (getComp s c)
    exact staticsEq_trans_frame _ _ _ f1 f2 f3 f4 (hst c)

lemma inv_distribute (s : SimState) (h : Inv s) : Inv (distribute_traffic s) := by
  obtain ⟨hg, hh, hst⟩ := h
  refine ⟨fun c => ?_, fun c => ?_, fun c => ?_⟩ <;>
    rcases getComp_distribute s c with hEq | ⟨hUP, per, hEq⟩ <;> rw [hEq]
  · exact hg c
  · exact lb_update_good _ _ _ (hg c)
  · exact hh c
  · obtain ⟨f1, f2, f3, f4, f5⟩ := lb_update_frame per s.current_time (getComp s c)
    exact histOK_of_frame _ _ f5 f4 (hh c)
  · exact hst c
  · obtain ⟨f1, f2, f3, f4, f5⟩ := lb_update_frame per s.current_time (getComp s c)
    exact staticsEq_trans_frame _ _ _ f1 f2 f3 f4 (hst c)

lemma inv_accrue (s : SimState) (h : Inv s) : Inv (accrue_cost s) := by
  obtain ⟨hg, hh, hst⟩ := h
  refine ⟨fun c => ?_, fun c => ?_, fun c => ?_⟩ <;> rw [getComp_accrue]
  · exact hg c
  · exact hh c
  · exact hst c

lemma inv_record (s : SimState) (h : Inv s) : Inv (record_system_down s) := by
  obtain ⟨hg, hh, hst⟩ := h
  refine ⟨fun c => ?_, fun c => ?_, fun c => ?_⟩ <;> rw [getComp_record]
  · exact hg c
  · exact hh c
  · exact hst c

lemma inv_recover (s : SimState) (h : Inv s) : Inv (recover_components s) := by
  obtain ⟨hg, hh, hst⟩ := h
  refine ⟨fun c => ?_, fun c => ?_, fun c => ?_⟩ <;> rw [getComp_recover]
  · exact recover_component_good _ _ (hg c)
  · exact recover_component_histOK _ _ (hh c)
  · exact recover_component_staticsEq _ _ _ (hst c)

lemma inv_inject (c : CompName) (s : SimState) (h : Inv s) :
    Inv (inject_failure c s) := by
  obtain ⟨hg, hh, hst⟩ := h
  refine ⟨fun c' => ?_, fun c' => ?_, fun c' => ?_⟩ <;> by_cases hc : c = c'
  · subst hc
    rw [getComp_inject_self]
    simp [good]
  · rw [getComp_inject_other s c c' hc]
    exact hg c'
  · subst hc
    rw [getComp_inject_self]
    exact fun x hx => hh c x hx
  · rw [getComp_inject_other s c c' hc]
    exact hh c'
  · subst hc
    rw [getComp_inject_self]
    exact hst c
  · rw [getComp_inject_other s c c' hc]
    exact hst c'

lemma inv_reset (s : SimState) (h : Inv s) : Inv (reset_system s) := by
  obtain ⟨hg, hh, hst⟩ := h
  refine ⟨fun c => ?_, fun c => ?_, fun c => ?_⟩ <;> rw [getComp_reset]
  · simp [good, reset_component]
  · exact fun x hx => hh c x hx
  · exact hst c

lemma inv_init : Inv initState := by
  refine ⟨fun c => ?_, fun c => ?_, fun c => ?_⟩ <;> cases c <;>
    simp [good, histOK, staticsEq, getComp, initState, mkComponent]

lemma inv_step (s : SimState) (h : Inv s) : Inv (step s) :=
  inv_recover _ (inv_record _ (inv_accrue _ (inv_distribute _
    (inv_propagate_servers _ (inv_propagate_databases _
      (inv_tick _ _ h))))))

/-- Every reachable state satisfies the combined invariant. -/
lemma reachable_inv {s : SimState} (h : Reachable s) : Inv s := by
  induction h with
  | init => exact inv_init
  | inject c _ ih => exact inv_inject _ _ ih
  | step _ ih => exact inv_step _ ih
  | reset _ ih => exact inv_reset _ ih

lemma reset_component_eq (c0 c : Component) (h : staticsEq c0 c)
    (hl : c0.load = 0) (hs : c0.status = Status.UP) (hd : c0.down_since = none)
    (hg : c0.degraded = false) :
    reset_component c = { c0 with recovery_history := c.recovery_history } := by
  obtain ⟨h1, h2, h3, h4⟩ := h
  cases c
  cases c0
  simp_all [reset_component]

lemma down_frame_propagate_databases (s : SimState) (c : CompName)
    (h : (getComp s c).status = Status.DOWN) :
    getComp (propagate_databases s) c = getComp s c := by
  rcases getComp_propagate_databases s c with hEq | ⟨deps, hEq⟩
  · exact hEq
  · rw [hEq, update_component_down _ _ _ h]

lemma down_frame_propagate_servers (s : SimState) (c : CompName)
    (h : (getComp s c).status = Status.DOWN) :
    getComp (propagate_servers s) c = getComp s c := by
  rcases getComp_propagate_servers s c with hEq | ⟨deps, hEq⟩
  · exact hEq
  · rw [hEq, update_component_down _ _ _ h]

lemma down_frame_distribute (s : SimState) (c : CompName)
    (h : (getComp s c).status = Status.DOWN) :
    getComp (distribute_traffic s) c = getComp s c := by
  rcases getComp_distribute s c with hEq | ⟨hUP, per, hEq⟩
  · exact hEq
  · rw [h] at hUP
    exact absurd hUP (by simp)

lemma step_down_frame (s : SimState) (c : CompName) (d : Int)
    (h1 : (getComp s c).status = Status.DOWN)
    (h2 : (getComp s c).down_since = some d)
    (h4 : s.current_time + 1 - d < (getComp s c).recovery_time) :
    getComp (step s) c = getComp s c := by
  have e0 : getComp { s with current_time := s.current_time + 1 } c = getComp s c :=
    getComp_tick s _ c
  have e1 : getComp (propagate_databases { s with current_time := s.current_time + 1 }) c
      = getComp s c := by
    rw [down_frame_propagate_databases _ _ (by rw [e0]; exact h1)]
    exact e0
  have e2 : getComp (propagate_servers (propagate_databases
      { s with current_time := s.current_time + 1 })) c = getComp s c := by
    rw [down_frame_propagate_servers _ _ (by rw [e1]; exact h1)]
    exact e1
  have e3 : getComp (distribute_traffic (propagate_servers (propagate_databases
      { s with current_time := s.current_time + 1 }))) c = getComp s c := by
    rw [down_frame_distribute _ _ (by rw [e2]; exact h1)]
    exact e2
  have e4 : getComp (record_system_down (accrue_cost (distribute_traffic
      (propagate_servers (propagate_databases
        { s with current_time := s.current_time + 1 }))))) c = getComp s c := by
    rw [getComp_record, getComp_accrue]
    exact e3
  have et : (record_system_down (accrue_cost (distribute_traffic
      (propagate_servers (propagate_databases
        { s with current_time := s.current_time + 1 }))))).current_time
      = s.current_time + 1 := by
    rw [ct_record, ct_accrue, ct_distribute, ct_propagate_servers, ct_propagate_databases]
  show getComp (recover_components _) c = getComp s c
  rw [getComp_recover, e4, et]
  exact recover_component_not_eligible _ _ d h1 h2 h4

end Sim

/-- C4: for every state, `system_down` returns true exactly when every
database-tier component is `DOWN` or every server-tier component is
`DOWN` (in both implementations); in particular, whenever both databases
are `DOWN` it returns true, regardless of the network and server
statuses. -/
theorem system_down_iff :
    (∀ s : Sim.SimState, Sim.system_down s = true ↔
      ((s.db1.status = Sim.Status.DOWN ∧ s.db2.status = Sim.Status.DOWN) ∨
        (s.ws1.status = Sim.Status.DOWN ∧ s.ws2.status = Sim.Status.DOWN))) ∧
    (∀ d : Dash.DState, Dash.dsystem_down d = true ↔
      ((d.db1.status = Sim.Status.DOWN ∧ d.db2.status = Sim.Status.DOWN) ∨
        (d.ws1.status = Sim.Status.DOWN ∧ d.ws2.status = Sim.Status.DOWN))) ∧
    (∀ s : Sim.SimState, s.db1.status = Sim.Status.DOWN →
      s.db2.status = Sim.Status.DOWN → Sim.system_down s = true) := by
  refine ⟨fun s => ?_, fun d => ?_, fun s h1 h2 => ?_⟩
  · simp [Sim.system_down]
  · simp [Dash.dsystem_down]
  · simp [Sim.system_down, h1, h2]

/-- C4 witness: with both databases failed by direct injection and the
network and both servers healthy, `system_down` is true. -/
theorem system_down_iff_witness :
    Sim.system_down
      (Sim.inject_failure Sim.CompName.Database2
        (Sim.inject_failure Sim.CompName.Database1 Sim.initState)) = true :=
  system_down_iff.2.2 _ (by decide) (by decide)

/-- C7: with default parameters, injecting a failure on the network at
time 0 and stepping leaves both databases healthy at load exactly 50
after step 1; the network is still failed after step 2 and recovers to
healthy during step 3 (duration 3 recorded). -/
theorem network_failure_scenario :
    ((Sim.step (Sim.inject_failure Sim.CompName.Network Sim.initState)).db1.status = Sim.Status.UP ∧
      (Sim.step (Sim.inject_failure Sim.CompName.Network Sim.initState)).db1.load = 50 ∧
      (Sim.step (Sim.inject_failure Sim.CompName.Network Sim.initState)).db2.status = Sim.Status.UP ∧
      (Sim.step (Sim.inject_failure Sim.CompName.Network Sim.initState)).db2.load = 50) ∧
    (Sim.step (Sim.step (Sim.inject_failure Sim.CompName.Network Sim.initState))).network.status = Sim.Status.DOWN ∧
    ((Sim.step (Sim.step (Sim.step (Sim.inject_failure Sim.CompName.Network Sim.initState)))).network.status = Sim.Status.UP ∧
      (Sim.step (Sim.step (Sim.step (Sim.inject_failure Sim.CompName.Network Sim.initState)))).network.recovery_history = [3]) := by
  decide

/-- C1 counterexample: after injecting the network at time 0 and running
3 steps (a reachable history in which the network recovers), `main.py`'s
`reset_system` leaves the network's recovery history equal to `[3]`, not
empty, so reset does not reproduce the construction baseline. -/
theorem reset_preserves_recovery_history_cex :
    Sim.Reachable (Sim.step (Sim.step (Sim.step (Sim.inject_failure Sim.CompName.Network Sim.initState)))) ∧
    (Sim.reset_system (Sim.step (Sim.step (Sim.step (Sim.inject_failure Sim.CompName.Network Sim.initState))))).network.recovery_history = [3] ∧
    ([3] : List Int) ≠ [] := by
  refine ⟨?_, by decide, by decide⟩
  exact Sim.Reachable.step (Sim.Reachable.step (Sim.Reachable.step
    (Sim.Reachable.inject _ Sim.Reachable.init)))

/-- C2 counterexample: in `main.py`, the network injected at time 0 is
still failed after one step with `down_since = some 0`, and a second
injection at the now-current time 1 resets `down_since` to `some 1` — a
change of `failedSince`, so the second injection is not a no-op on
component state. -/
theorem inject_on_failed_refreshes_failedSince_cex :
    (Sim.step (Sim.inject_failure Sim.CompName.Network Sim.initState)).network.status = Sim.Status.DOWN ∧
    (Sim.step (Sim.inject_failure Sim.CompName.Network Sim.initState)).network.down_since = some 0 ∧
    (Sim.inject_failure Sim.CompName.Network (Sim.step (Sim.inject_failure Sim.CompName.Network Sim.initState))).network.down_since = some 1 ∧
    (some (0 : Int) ≠ some (1 : Int)) := by
  decide

/-- C3 counterexample: `dashboard.py`'s `simulate_step` does not execute
the phases claimed: a server injected at time 0 recovers during the step
yet accrues no cost (cost 0, whereas the claimed cost-before-Recover
order, as in `main.py`, charges 15000), and a step from the baseline
distributes no traffic to servers (load stays 0, whereas the claimed
DistributeTraffic phase, as in `main.py`, gives each of two healthy
servers 60). -/
theorem dashboard_step_phase_order_cex :
    (Dash.dstep (Dash.dinject Sim.CompName.WebServer1 Dash.dinit)).cost = 0 ∧
    (Sim.step (Sim.inject_failure Sim.CompName.WebServer1 Sim.initState)).total_failure_cost = 15000 ∧
    (Dash.dstep Dash.dinit).ws1.load = 0 ∧
    (Sim.step Sim.initState).ws1.load = 60 ∧
    ((0 : Int) ≠ 15000) ∧ ((0 : Int) ≠ 60) := by
  decide

/-- C5 counterexample: at the reachable state obtained by running 3
steps from the baseline (both servers fail at step 3 from traffic, so a
system-down time 3 is recorded with only two timeline events), the
resilience score at `totalTimeSteps = -1` is 110, outside `[0, 100]`. -/
theorem resilience_score_exceeds_100_cex :
    Sim.Reachable (Sim.step (Sim.step (Sim.step Sim.initState))) ∧
    Sim.calculate_resilience_score (-1) (Sim.step (Sim.step (Sim.step Sim.initState))) = 110 ∧
    ¬ Sim.calculate_resilience_score (-1) (Sim.step (Sim.step (Sim.step Sim.initState))) ≤ 100 := by
  refine ⟨?_, by decide, by decide⟩
  exact Sim.Reachable.step (Sim.Reachable.step (Sim.Reachable.step Sim.Reachable.init))

/-- C8 counterexample: on a dashboard state whose recovery durations are
`[1, 1, 2]`, `dashboard.py`'s `mttr` returns `1.33`, which differs from
the arithmetic mean `4/3` of the entries. -/
theorem dashboard_mttr_rounding_cex :
    Dash.dmttr { Dash.dinit with
      network := { Dash.dinit.network with recovery_history := [1, 1, 2] } } = 133 / 100 ∧
    ((133 : ℚ) / 100 ≠ 4 / 3) ∧
    (((([1, 1, 2] : List Int).sum : Int) : ℚ) / ((([1, 1, 2] : List Int).length : Nat) : ℚ) = 4 / 3) := by
  refine ⟨?_, by norm_num, by norm_num⟩
  have h1 : Dash.dall_recovery_times { Dash.dinit with
      network := { Dash.dinit.network with recovery_history := [1, 1, 2] } } = [1, 1, 2] := rfl
  simp only [Dash.dmttr, h1]
  norm_num [Dash.roundTo2, Dash.roundHalfEven]
  decide

/-- C2 amended: in `dashboard.py`, injecting a failure into an
already-Failed component is a no-op on the whole state; in `main.py` it
leaves `status` and `load` unchanged but resets `failedSince` to the
current time and appends another `"Injected failure"` timeline event. -/
theorem inject_on_failed_behavior :
    (∀ (d : Dash.DState) (c : Sim.CompName),
      (Dash.getC d c).status = Sim.Status.DOWN → Dash.dinject c d = d) ∧
    (∀ (s : Sim.SimState) (c : Sim.CompName),
      (Sim.getComp s c).status = Sim.Status.DOWN →
        (Sim.getComp (Sim.inject_failure c s) c).status = Sim.Status.DOWN ∧
        (Sim.getComp (Sim.inject_failure c s) c).load = (Sim.getComp s c).load ∧
        (Sim.getComp (Sim.inject_failure c s) c).down_since = some s.current_time ∧
        (Sim.inject_failure c s).failure_timeline =
          s.failure_timeline ++
            [(s.current_time, (Sim.getComp s c).name, Sim.Cause.injected)]) := by
  constructor
  · intro d c h
    simp [Dash.dinject, h]
  · intro s c h
    refine ⟨?_, ?_, ?_, ?_⟩ <;> cases c <;>
      simp [Sim.inject_failure, Sim.getComp, Sim.setComp]

/-- C2 witness: concrete applications of both parts — the dashboard
re-injection of an already-failed server is the identity, and the main
re-injection of the already-failed network keeps status and load but
stamps `down_since` with the (unchanged, 0) current time and appends a
second event. -/
theorem inject_on_failed_witness :
    Dash.dinject Sim.CompName.WebServer1
        (Dash.dinject Sim.CompName.WebServer1 Dash.dinit) =
      Dash.dinject Sim.CompName.WebServer1 Dash.dinit ∧
    ((Sim.getComp (Sim.inject_failure Sim.CompName.Network
        (Sim.inject_failure Sim.CompName.Network Sim.initState))
        Sim.CompName.Network).status = Sim.Status.DOWN ∧
      (Sim.getComp (Sim.inject_failure Sim.CompName.Network
        (Sim.inject_failure Sim.CompName.Network Sim.initState))
        Sim.CompName.Network).load =
        (Sim.getComp (Sim.inject_failure Sim.CompName.Network Sim.initState)
          Sim.CompName.Network).load ∧
      (Sim.getComp (Sim.inject_failure Sim.CompName.Network
        (Sim.inject_failure Sim.CompName.Network Sim.initState))
        Sim.CompName.Network).down_since =
        some (Sim.inject_failure Sim.CompName.Network Sim.initState).current_time ∧
      (Sim.inject_failure Sim.CompName.Network
        (Sim.inject_failure Sim.CompName.Network Sim.initState)).failure_timeline =
        (Sim.inject_failure Sim.CompName.Network Sim.initState).failure_timeline ++
          [((Sim.inject_failure Sim.CompName.Network Sim.initState).current_time,
            (Sim.getComp (Sim.inject_failure Sim.CompName.Network Sim.initState)
              Sim.CompName.Network).name, Sim.Cause.injected)]) :=
  ⟨inject_on_failed_behavior.1 _ _ (by decide),
    inject_on_failed_behavior.2 _ _ (by decide)⟩

/-- C9: in every state reachable from the baseline via `Inject`, `Step`
and `Reset`, a component's `down_since` is set if and only if its status
is `DOWN`. -/
theorem failedSince_iff_failed_reachable :
    ∀ s : Sim.SimState, Sim.Reachable s → ∀ c : Sim.CompName,
      ((Sim.getComp s c).status = Sim.Status.DOWN ↔
        (Sim.getComp s c).down_since ≠ none) :=
  fun _ h c => (Sim.reachable_inv h).1 c

/-- C9 witness: at the reachable state with the network just injected,
the equivalence holds for the network component. -/
theorem failedSince_iff_failed_witness :
    ((Sim.getComp (Sim.inject_failure Sim.CompName.Network Sim.initState)
        Sim.CompName.Network).status = Sim.Status.DOWN ↔
      (Sim.getComp (Sim.inject_failure Sim.CompName.Network Sim.initState)
        Sim.CompName.Network).down_since ≠ none) :=
  failedSince_iff_failed_reachable _ (Sim.Reachable.inject _ Sim.Reachable.init) _

/-- C3 amended: `main.py`'s step increments the time by exactly 1 and is
the composition, in order, of Propagate over databases then servers,
DistributeTraffic, cost accrual, first-system-down recording, and
Recover; `dashboard.py`'s `simulate_step` increments the time by 1 but
runs Propagate (databases, servers), then Recover, then cost accrual,
with no traffic-distribution and no system-down-recording phase. -/
theorem step_phase_order :
    (∀ s : Sim.SimState,
      Sim.step s = Sim.recover_components (Sim.record_system_down (Sim.accrue_cost
        (Sim.distribute_traffic (Sim.propagate_servers (Sim.propagate_databases
          { s with current_time := s.current_time + 1 }))))) ∧
      (Sim.step s).current_time = s.current_time + 1) ∧
    (∀ d : Dash.DState,
      Dash.dstep d = Dash.daccrue_cost (Dash.drecover (Dash.dpropagate_servers
        (Dash.dpropagate_databases { d with time := d.time + 1 }))) ∧
      (Dash.dstep d).time = d.time + 1) :=
  ⟨fun s => ⟨rfl, Sim.ct_step s⟩, fun _ => ⟨rfl, rfl⟩⟩

/-- C5 amended: the resilience score equals the spec's formula and is
never negative; it is at most 100 whenever no system-down time was
recorded or `totalTimeSteps` is at least the recorded system-down time
(as in every call the program itself makes) — but not for arbitrary
`totalTimeSteps` values. -/
theorem resilience_score_formula_and_bounds :
    ∀ (total_time : Int) (s : Sim.SimState),
      0 ≤ Sim.calculate_resilience_score total_time s ∧
      Sim.calculate_resilience_score total_time s =
        Sim.spec_resilience_score total_time s ∧
      ((s.system_down_time = none ∨
          ∃ d, s.system_down_time = some d ∧ d ≤ total_time) →
        Sim.calculate_resilience_score total_time s ≤ 100) := by
  intro T s
  refine ⟨le_max_right _ _, ?_, ?_⟩
  · simp only [Sim.calculate_resilience_score, Sim.spec_resilience_score]
    cases s.system_down_time <;> simp <;> ring_nf
  · rintro (h | ⟨d, hd, hdT⟩)
    · simp only [Sim.calculate_resilience_score, h]
      refine max_le ?_ (by norm_num)
      omega
    · simp only [Sim.calculate_resilience_score, hd]
      refine max_le ?_ (by norm_num)
      omega

/-- C5 witness: at the reachable three-step state (system-down time 3)
with `totalTimeSteps = 3`, the score is within bounds. -/
theorem resilience_score_bounds_witness :
    0 ≤ Sim.calculate_resilience_score 3 (Sim.step (Sim.step (Sim.step Sim.initState))) ∧
    Sim.calculate_resilience_score 3 (Sim.step (Sim.step (Sim.step Sim.initState))) ≤ 100 :=
  ⟨(resilience_score_formula_and_bounds 3 _).1,
    (resilience_score_formula_and_bounds 3 _).2.2 (Or.inr ⟨3, by decide, by decide⟩)⟩

/-- C8 amended: `main.py`'s `calculate_mttr` returns 0 when no
recoveries have been recorded and otherwise the exact arithmetic mean
of all recovery durations; `dashboard.py`'s `mttr` returns 0 when empty
and otherwise that mean rounded to two decimal places (which can differ
from the exact mean). -/
theorem mttr_mean_spec :
    (∀ s : Sim.SimState, Sim.all_recovery_times s = [] →
      Sim.calculate_mttr s = 0) ∧
    (∀ s : Sim.SimState, Sim.all_recovery_times s ≠ [] →
      Sim.calculate_mttr s =
        (((Sim.all_recovery_times s).sum : Int) : ℚ) /
          ((Sim.all_recovery_times s).length : ℚ)) ∧
    (∀ d : Dash.DState, Dash.dall_recovery_times d = [] → Dash.dmttr d = 0) ∧
    (∀ d : Dash.DState, Dash.dall_recovery_times d ≠ [] →
      Dash.dmttr d = Dash.roundTo2
        ((((Dash.dall_recovery_times d).sum : Int) : ℚ) /
          ((Dash.dall_recovery_times d).length : ℚ))) := by
  refine ⟨fun s h => ?_, fun s h => ?_, fun d h => ?_, fun d h => ?_⟩ <;>
    simp [Sim.calculate_mttr, Dash.dmttr, h]

/-- C8 witness: concrete applications — empty histories give 0 in both
implementations; a single recorded duration 3 gives the exact mean in
`main.py` and the rounded mean in `dashboard.py`. -/
theorem mttr_mean_witness :
    Sim.calculate_mttr Sim.initState = 0 ∧
    Sim.calculate_mttr { Sim.initState with
        network := { Sim.initState.network with recovery_history := [3] } } =
      (((Sim.all_recovery_times { Sim.initState with
          network := { Sim.initState.network with recovery_history := [3] } }).sum : Int) : ℚ) /
        ((Sim.all_recovery_times { Sim.initState with
          network := { Sim.initState.network with recovery_history := [3] } }).length : ℚ) ∧
    Dash.dmttr Dash.dinit = 0 ∧
    Dash.dmttr { Dash.dinit with
        network := { Dash.dinit.network with recovery_history := [3] } } =
      Dash.roundTo2 ((((Dash.dall_recovery_times { Dash.dinit with
          network := { Dash.dinit.network with recovery_history := [3] } }).sum : Int) : ℚ) /
        ((Dash.dall_recovery_times { Dash.dinit with
          network := { Dash.dinit.network with recovery_history := [3] } }).length : ℚ)) :=
  ⟨mttr_mean_spec.1 _ rfl, mttr_mean_spec.2.1 _ (by decide),
    mttr_mean_spec.2.2.1 _ rfl, mttr_mean_spec.2.2.2 _ (by decide)⟩

/-- C1 amended: for every reachable state, `main.py`'s `reset_system`
restores every component to status `UP`, load 0, `down_since` `none`,
`degraded` false, with time 0, cost 0, empty timeline and no recorded
system-down time — the exact construction baseline except that each
component's `recovery_history` is preserved, not cleared;
`dashboard.py`'s `reset_system` rebuilds the components and so does
reproduce the exact construction baseline, empty histories included. -/
theorem reset_restores_baseline_except_recovery_history :
    (∀ s : Sim.SimState, Sim.Reachable s →
      Sim.reset_system s =
        { Sim.initState with
            network := { Sim.initState.network with
              recovery_history := s.network.recovery_history }
            db1 := { Sim.initState.db1 with
              recovery_history := s.db1.recovery_history }
            db2 := { Sim.initState.db2 with
              recovery_history := s.db2.recovery_history }
            ws1 := { Sim.initState.ws1 with
              recovery_history := s.ws1.recovery_history }
            ws2 := { Sim.initState.ws2 with
              recovery_history := s.ws2.recovery_history } }) ∧
    (∀ d : Dash.DState, Dash.dreset d = Dash.dinit) := by
  constructor
  · intro s hs
    obtain ⟨hg, hh, hst⟩ := Sim.reachable_inv hs
    have hN : Sim.reset_component s.network =
        { Sim.initState.network with recovery_history := s.network.recovery_history } :=
      Sim.reset_component_eq _ _ (hst Sim.CompName.Network) rfl rfl rfl rfl
    have hD1 : Sim.reset_component s.db1 =
        { Sim.initState.db1 with recovery_history := s.db1.recovery_history } :=
      Sim.reset_component_eq _ _ (hst Sim.CompName.Database1) rfl rfl rfl rfl
    have hD2 : Sim.reset_component s.db2 =
        { Sim.initState.db2 with recovery_history := s.db2.recovery_history } :=
      Sim.reset_component_eq _ _ (hst Sim.CompName.Database2) rfl rfl rfl rfl
    have hW1 : Sim.reset_component s.ws1 =
        { Sim.initState.ws1 with recovery_history := s.ws1.recovery_history } :=
      Sim.reset_component_eq _ _ (hst Sim.CompName.WebServer1) rfl rfl rfl rfl
    have hW2 : Sim.reset_component s.ws2 =
        { Sim.initState.ws2 with recovery_history := s.ws2.recovery_history } :=
      Sim.reset_component_eq _ _ (hst Sim.CompName.WebServer2) rfl rfl rfl rfl
    simp only [Sim.reset_system, hN, hD1, hD2, hW1, hW2]
    rfl
  · intro d
    rfl

/-- C1 witness: applying the reset round trip at the baseline itself. -/
theorem reset_restores_baseline_witness :
    Sim.reset_system Sim.initState =
      { Sim.initState with
          network := { Sim.initState.network with
            recovery_history := Sim.initState.network.recovery_history }
          db1 := { Sim.initState.db1 with
            recovery_history := Sim.initState.db1.recovery_history }
          db2 := { Sim.initState.db2 with
            recovery_history := Sim.initState.db2.recovery_history }
          ws1 := { Sim.initState.ws1 with
            recovery_history := Sim.initState.ws1.recovery_history }
          ws2 := { Sim.initState.ws2 with
            recovery_history := Sim.initState.ws2.recovery_history } } ∧
    Dash.dreset Dash.dinit = Dash.dinit :=
  ⟨reset_restores_baseline_except_recovery_history.1 _ Sim.Reachable.init,
    reset_restores_baseline_except_recovery_history.2 _⟩

/-- C6: `recover_components` transitions a `DOWN` component with a set
`down_since` back to `UP` exactly when `currentTime - failedSince`
reaches its `recovery_time`, resetting load to 0, clearing `degraded`
and `down_since` and appending the duration; components not yet
eligible, healthy components and components without `down_since` are
untouched; and in every reachable state every recorded recovery
duration is at least the owning component's `recovery_time`. -/
theorem recover_transition_spec :
    (∀ (t : Int) (c : Sim.Component) (d : Int),
      c.status = Sim.Status.DOWN → c.down_since = some d →
        (c.recovery_time ≤ t - d →
          Sim.recover_component t c =
            { c with status := Sim.Status.UP, load := 0, degraded := false,
                     down_since := none,
                     recovery_history := c.recovery_history ++ [t - d] }) ∧
        (t - d < c.recovery_time → Sim.recover_component t c = c)) ∧
    (∀ (t : Int) (c : Sim.Component), c.status = Sim.Status.UP →
      Sim.recover_component t c = c) ∧
    (∀ (t : Int) (c : Sim.Component), c.down_since = none →
      Sim.recover_component t c = c) ∧
    (∀ s : Sim.SimState, Sim.Reachable s → ∀ c : Sim.CompName,
      ∀ x ∈ (Sim.getComp s c).recovery_history,
        (Sim.getComp s c).recovery_time ≤ x) :=
  ⟨fun t c d h1 h2 =>
      ⟨fun h3 => Sim.recover_component_eligible t c d h1 h2 h3,
        fun h3 => Sim.recover_component_not_eligible t c d h1 h2 h3⟩,
    fun t c h => Sim.recover_component_up t c h,
    fun t c h => Sim.recover_component_none t c h,
    fun _ hs c => (Sim.reachable_inv hs).2.1 c⟩

/-- C6 witness: the network injected at time 0 (recovery time 3)
recovers at time 5 with duration 5 recorded, is untouched at time 1,
healthy components are untouched, and in the reachable state where the
network recovered after 3 steps its recorded duration 3 is at least its
recovery time. -/
theorem recover_transition_witness :
    Sim.recover_component 5
        (Sim.getComp (Sim.inject_failure Sim.CompName.Network Sim.initState)
          Sim.CompName.Network) =
      { Sim.getComp (Sim.inject_failure Sim.CompName.Network Sim.initState)
          Sim.CompName.Network with
        status := Sim.Status.UP, load := 0, degraded := false, down_since := none,
        recovery_history :=
          (Sim.getComp (Sim.inject_failure Sim.CompName.Network Sim.initState)
            Sim.CompName.Network).recovery_history ++ [(5 : Int) - 0] } ∧
    Sim.recover_component 1
        (Sim.getComp (Sim.inject_failure Sim.CompName.Network Sim.initState)
          Sim.CompName.Network) =
      Sim.getComp (Sim.inject_failure Sim.CompName.Network Sim.initState)
        Sim.CompName.Network ∧
    Sim.recover_component 7 (Sim.getComp Sim.initState Sim.CompName.Network) =
      Sim.getComp Sim.initState Sim.CompName.Network ∧
    Sim.recover_component 7 (Sim.getComp Sim.initState Sim.CompName.Database1) =
      Sim.getComp Sim.initState Sim.CompName.Database1 ∧
    (Sim.getComp (Sim.step (Sim.step (Sim.step
        (Sim.inject_failure Sim.CompName.Network Sim.initState))))
      Sim.CompName.Network).recovery_time ≤ 3 :=
  ⟨(recover_transition_spec.1 5 _ 0 (by decide) (by decide)).1 (by decide),
    (recover_transition_spec.1 1 _ 0 (by decide) (by decide)).2 (by decide),
    recover_transition_spec.2.1 7 _ (by decide),
    recover_transition_spec.2.2.1 7 _ (by decide),
    recover_transition_spec.2.2.2 _
      (Sim.Reachable.step (Sim.Reachable.step (Sim.Reachable.step
        (Sim.Reachable.inject _ Sim.Reachable.init)))) Sim.CompName.Network 3
      (by decide)⟩

/-- C10: no operation other than a recovery transition or a full reset
clears a `degraded` flag: injection and dependency propagation leave
`degraded` exactly as it was, traffic distribution never clears a set
flag, `recover_components`' per-component action is either the identity
or the full recovery transition, reset clears all flags, and a `DOWN`
degraded component that is not yet eligible to recover is still `DOWN`
and degraded after a whole step. -/
theorem degraded_cleared_only_by_recovery_or_reset :
    (∀ (s : Sim.SimState) (c c' : Sim.CompName),
      (Sim.getComp (Sim.inject_failure c s) c').degraded =
        (Sim.getComp s c').degraded) ∧
    (∀ (deps : List Sim.Status) (t : Int) (c : Sim.Component),
      (Sim.update_component deps t c).1.degraded = c.degraded) ∧
    (∀ (s : Sim.SimState) (c : Sim.CompName),
      (Sim.getComp s c).degraded = true →
        (Sim.getComp (Sim.distribute_traffic s) c).degraded = true) ∧
    (∀ (t : Int) (c : Sim.Component),
      Sim.recover_component t c = c ∨
        ((Sim.recover_component t c).status = Sim.Status.UP ∧
          (Sim.recover_component t c).degraded = false)) ∧
    (∀ (s : Sim.SimState) (c : Sim.CompName),
      (Sim.getComp (Sim.reset_system s) c).degraded = false) ∧
    (∀ (s : Sim.SimState) (c : Sim.CompName) (d : Int),
      (Sim.getComp s c).status = Sim.Status.DOWN →
      (Sim.getComp s c).degraded = true →
      (Sim.getComp s c).down_since = some d →
      s.current_time + 1 - d < (Sim.getComp s c).recovery_time →
        (Sim.getComp (Sim.step s) c).status = Sim.Status.DOWN ∧
        (Sim.getComp (Sim.step s) c).degraded = true) := by
  refine ⟨fun s c c' => ?_, fun deps t c => (Sim.update_component_frame deps t c).2.2.2.2.2,
    fun s c h => ?_, fun t c => ?_, fun s c => ?_, fun s c d h1 h2 h3 h4 => ?_⟩
  · by_cases hc : c = c'
    · subst hc
      rw [Sim.getComp_inject_self]
    · rw [Sim.getComp_inject_other s c c' hc]
  · rcases Sim.getComp_distribute s c with hEq | ⟨hUP, per, hEq⟩ <;> rw [hEq]
    · exact h
    · exact Sim.lb_update_degraded _ _ _ h
  · cases hst : c.status
    · exact Or.inl (Sim.recover_component_up t c hst)
    · rcases hds : c.down_since with _ | d
      · exact Or.inl (Sim.recover_component_none t c hds)
      · by_cases hel : c.recovery_time ≤ t - d
        · rw [Sim.recover_component_eligible t c d hst hds hel]
          exact Or.inr ⟨rfl, rfl⟩
        · exact Or.inl (Sim.recover_component_not_eligible t c d hst hds (by omega))
  · rw [Sim.getComp_reset]
    rfl
  · rw [Sim.step_down_frame s c d h1 h3 h4]
    exact ⟨h1, h2⟩

/-- C10 witness: a server that is `DOWN` and degraded with `down_since`
far in the future (hence not eligible) keeps its flag through traffic
distribution and through a whole step. -/
theorem degraded_frame_witness :
    (Sim.getComp (Sim.distribute_traffic { Sim.initState with
        ws1 := { Sim.initState.ws1 with
          status := Sim.Status.DOWN
          degraded := true
          down_since := some 10 } })
      Sim.CompName.WebServer1).degraded = true ∧
    ((Sim.getComp (Sim.step { Sim.initState with
        ws1 := { Sim.initState.ws1 with
          status := Sim.Status.DOWN
          degraded := true
          down_since := some 10 } })
      Sim.CompName.WebServer1).status = Sim.Status.DOWN ∧
      (Sim.getComp (Sim.step { Sim.initState with
        ws1 := { Sim.initState.ws1 with
          status := Sim.Status.DOWN
          degraded := true
          down_since := some 10 } })
      Sim.CompName.WebServer1).degraded = true) :=
  ⟨degraded_cleared_only_by_recovery_or_reset.2.2.1 _ _ (by decide),
    degraded_cleared_only_by_recovery_or_reset.2.2.2.2.2 _ _ 10
      (by decide) (by decide) (by decide) (by decide)⟩
